import Mathlib

/-!
Shallow embedding of the notification dispatch and device-lifecycle engine of
push_notifications/models.py: device records, the Result Interpreter
(deactivate_device_on_fcm_error), the Token Translator (resolve_fcm_token),
the per-device APNS send path (APNSDevice.send_message) and the bulk queryset
send paths (GCMDeviceQuerySet / APNSDeviceQuerySet / WNSDeviceQuerySet
send_message).

Stateful Django model code is embedded as explicit state passing: each
operation returns the device state after the call, the list of persisted
field updates (one entry per device.save call, holding its update_fields),
a count of network calls, the vendor gateway calls made, the Python return
value, and the exception raised, if any. External collaborators (the
conversion endpoint, the gateway clients) are passed in as explicit inputs
describing what they would return.
-/

/-- A record of the APNSDevice model: primary key, active flag, the APNS
registration id and the nullable cached FCM token. Only the fields the
embedded operations read or write are carried. -/
structure APNSDevice where
  id : Nat
  active : Bool
  registration_id : String
  fcm_token : Option String
deriving DecidableEq

/-- A record of the GCMDevice model restricted to the fields the bulk send
path reads. -/
structure GCMDevice where
  active : Bool
  registration_id : String
deriving DecidableEq

/-- A record of the WNSDevice model restricted to the fields the bulk send
path reads. -/
structure WNSDevice where
  active : Bool
  registration_id : String
deriving DecidableEq

/-- One entry of the per-recipient results list of an FCM gateway result
dict. The error field is the optional presence of the key named error in the
entry dict (absent key modelled as none). -/
structure FCMRecipient where
  error : Option String
deriving DecidableEq

/-- An FCM gateway result dict, restricted to the keys the Result Interpreter
reads: the failure count and the ordered per-recipient results list. -/
structure FCMResult where
  failure : Nat
  results : List FCMRecipient
deriving DecidableEq

/-- Python exceptions the embedded code can raise: a missing dict key, a
bad list index, and django ImproperlyConfigured with its message. -/
inductive PyError where
  | keyError
  | indexError
  | improperlyConfigured (msg : String)
deriving DecidableEq

/-- from models.py: configuration_errors = set(["MismatchSenderId"]). -/
def configuration_errors : List String := ["MismatchSenderId"]

/-- from models.py: unrecoverable_errors = set(["MissingRegistration",
"InvalidRegistration", "NotRegistered"]). -/
def unrecoverable_errors : List String :=
  ["MissingRegistration", "InvalidRegistration", "NotRegistered"]

/-- Outcome of running deactivate_device_on_fcm_error: device state after
the call, the persisted updates (one entry per save call, holding its
update_fields tuple), and the exception raised, if any. -/
structure InterpOutcome where
  device : APNSDevice
  saves : List (List String)
  exn : Option PyError
deriving DecidableEq

/-- Embedding of deactivate_device_on_fcm_error(device, result). When the
failure count is positive the code reads result["results"][0]["error"]
unconditionally: an empty results list is an IndexError and a first entry
without an error key is a KeyError. An unrecoverable error deactivates the
device and saves update_fields=("active",); a configuration error raises
ImproperlyConfigured with the device id and the error code in the message;
any other error falls through with no effect. -/
def deactivate_device_on_fcm_error (device : APNSDevice) (result : FCMResult) :
    InterpOutcome :=
  if 0 < result.failure then
    match result.results with
    | [] => ⟨device, [], some PyError.indexError⟩
    | r0 :: _ =>
      match r0.error with
      | none => ⟨device, [], some PyError.keyError⟩
      | some e =>
        if e ∈ unrecoverable_errors then
          ⟨{ device with active := false }, [["active"]], none⟩
        else if e ∈ configuration_errors then
          ⟨device, [],
            some (PyError.improperlyConfigured
              ("FCM config issue when sending to device " ++ toString device.id
                ++ ": " ++ e))⟩
        else ⟨device, [], none⟩
  else ⟨device, [], none⟩

/-- One entry of the results list returned by the iid batchImport conversion
endpoint. The registration_token field models the optional presence of that
key in the entry (absent key modelled as none). -/
structure ConversionEntry where
  apns_token : String
  status : String
  registration_token : Option String
deriving DecidableEq

/-- Python truthiness of a nullable text field: None and the empty string
are falsy, any other string is truthy. -/
def truthyStr : Option String → Bool
  | none => false
  | some s => s != ""

/-- Embedding of the loop in resolve_fcm_token over response entries: the
first entry whose apns_token equals the device registration id with status
OK decides the result (the loop breaks there). Returns none when no entry
matches, and otherwise the optional registration_token of the first matching
entry (some none standing for a matching entry without that key, which the
code turns into a KeyError). -/
def findConversionToken (reg : String) : List ConversionEntry → Option (Option String)
  | [] => none
  | r :: rest =>
    if r.apns_token == reg && r.status == "OK" then some r.registration_token
    else findConversionToken reg rest

/-- Outcome of running resolve_fcm_token: device state after the call, the
number of HTTP requests made to the conversion endpoint, the persisted
updates and the exception raised, if any. -/
structure ResolveOutcome where
  device : APNSDevice
  network_calls : Nat
  saves : List (List String)
  exn : Option PyError
deriving DecidableEq

/-- Embedding of resolve_fcm_token(device). The response argument stands for
the results list the conversion endpoint would return to the single POST the
code makes. A truthy fcm_token returns at once with no network call. Else one
POST is made; when the first matching OK entry carries a truthy
registration_token it is stored into fcm_token and saved with
update_fields=("fcm_token",); a falsy token or no match leaves the device
untouched; a matching entry without the registration_token key is a
KeyError. -/
def resolve_fcm_token (device : APNSDevice) (response : List ConversionEntry) :
    ResolveOutcome :=
  if truthyStr device.fcm_token then
    ⟨device, 0, [], none⟩
  else
    match findConversionToken device.registration_id response with
    | none => ⟨device, 1, [], none⟩
    | some none => ⟨device, 1, [], some PyError.keyError⟩
    | some (some t) =>
      if t != "" then
        ⟨{ device with fcm_token := some t }, 1, [["fcm_token"]], none⟩
      else ⟨device, 1, [], none⟩

/-- A call made to a vendor gateway client from APNSDevice.send_message:
either pyfcm notify_single_device with its keyword arguments as the code
passes them (message_title is commented out in the source, recorded here as
none), or apns_send_message with registration_id and alert. -/
inductive GatewayCall where
  | fcmNotifySingle (registration_id : String) (message_body : String)
      (data_message : Option (List (String × String))) (message_title : Option String)
  | apnsSend (registration_id : String) (alert : String)
deriving DecidableEq

/-- True exactly on the single-device FCM gateway call. -/
def GatewayCall.isFcmSingle : GatewayCall → Bool
  | .fcmNotifySingle _ _ _ _ => true
  | .apnsSend _ _ => false

/-- Outcome of running APNSDevice.send_message: device state after the call,
how many times resolve_fcm_token was invoked, the HTTP requests made to the
conversion endpoint, the ordered gateway calls made, the persisted updates,
the Python return value (none stands for the implicit None) and the
exception raised, if any. The native APNS gateway return value is abstract,
modelled as a Nat passed in by the caller. -/
structure APNSSendOutcome where
  device : APNSDevice
  resolve_calls : Nat
  network_calls : Nat
  gateway_calls : List GatewayCall
  saves : List (List String)
  retval : Option Nat
  exn : Option PyError
deriving DecidableEq

/-- Embedding of APNSDevice.send_message(message, extra=extra). use_fcm is
the SETTINGS value of APNS_USE_FCM; conv is what the conversion endpoint
would answer; fcmResult is what pyfcm notify_single_device would return;
apnsRet is what apns_send_message would return. With the flag set and no
truthy cached token the code first runs resolve_fcm_token; with the flag set
and a truthy token after that step it calls notify_single_device on the fcm
token (message_body only, no message_title, data_message = extra) and feeds
the result to deactivate_device_on_fcm_error, returning None; otherwise it
returns the value of apns_send_message on the registration id. -/
def APNSDevice.send_message (d : APNSDevice) (message : String)
    (extra : Option (List (String × String))) (use_fcm : Bool)
    (conv : List ConversionEntry) (fcmResult : FCMResult) (apnsRet : Nat) :
    APNSSendOutcome :=
  let rc : Nat := if use_fcm && !truthyStr d.fcm_token then 1 else 0
  let ro : ResolveOutcome :=
    if use_fcm && !truthyStr d.fcm_token then resolve_fcm_token d conv
    else ⟨d, 0, [], none⟩
  match ro.exn with
  | some e => ⟨ro.device, rc, ro.network_calls, [], ro.saves, none, some e⟩
  | none =>
    if use_fcm && truthyStr ro.device.fcm_token then
      let call := GatewayCall.fcmNotifySingle (ro.device.fcm_token.getD "")
        message extra none
      let io := deactivate_device_on_fcm_error ro.device fcmResult
      ⟨io.device, rc, ro.network_calls, [call], ro.saves ++ io.saves, none, io.exn⟩
    else
      ⟨ro.device, rc, ro.network_calls,
        [GatewayCall.apnsSend ro.device.registration_id message],
        ro.saves, some apnsRet, none⟩

/-- Python dict item assignment on a string-keyed dict modelled as an
association list without duplicate keys: overwrite the key when present,
append it otherwise. -/
def setKey (m : List (String × String)) (k v : String) : List (String × String) :=
  if m.any (fun p => p.1 == k) then
    m.map (fun p => if p.1 == k then (k, v) else p)
  else m ++ [(k, v)]

/-- The data dict GCMDeviceQuerySet.send_message builds: the extra dict,
with the message stored under the key named message when not None. -/
def gcmData (extra : List (String × String)) : Option String → List (String × String)
  | some m => setKey extra "message" m
  | none => extra

/-- The arguments of one gcm_send_bulk_message gateway call. -/
structure GcmBulkCall where
  registration_ids : List String
  data : List (String × String)
deriving DecidableEq

/-- Outcome of GCMDeviceQuerySet.send_message: the gateway call made (none
when no call happens), the device states after the call, the persisted
updates and the Python return value (none stands for the implicit None; the
gateway return value is an FCMResult supplied by the caller). -/
structure GCMBulkOutcome where
  call : Option GcmBulkCall
  devices : List GCMDevice
  saves : List (List String)
  retval : Option FCMResult
deriving DecidableEq

/-- Embedding of GCMDeviceQuerySet.send_message(message, extra=extra). The
queryset is a device list; a falsy (empty) queryset does nothing and returns
None. Else the registration ids of the active devices are collected and one
gcm_send_bulk_message call is made, whose return value (gatewayResult,
supplied by the caller) is returned. No device state is touched. -/
def GCMDeviceQuerySet.send_message (qs : List GCMDevice) (message : Option String)
    (extra : List (String × String)) (gatewayResult : FCMResult) : GCMBulkOutcome :=
  if qs.isEmpty then ⟨none, qs, [], none⟩
  else
    let reg_ids := (qs.filter (fun d => d.active)).map (fun d => d.registration_id)
    ⟨some ⟨reg_ids, gcmData extra message⟩, qs, [], some gatewayResult⟩

/-- The arguments of one apns_send_bulk_message gateway call. -/
structure ApnsBulkCall where
  registration_ids : List String
  alert : String
deriving DecidableEq

/-- Embedding of APNSDeviceQuerySet.send_message(message). A falsy (empty)
queryset does nothing and returns None (result none); else one
apns_send_bulk_message call on the active registration ids is made and its
return value (abstract, a Nat supplied by the caller) is returned. -/
def APNSDeviceQuerySet.send_message (qs : List APNSDevice) (message : String)
    (gatewayResult : Nat) : Option (ApnsBulkCall × Nat) :=
  if qs.isEmpty then none
  else
    some (⟨(qs.filter (fun d => d.active)).map (fun d => d.registration_id),
      message⟩, gatewayResult)

/-- The arguments of one wns_send_bulk_message gateway call. -/
structure WnsBulkCall where
  uri_list : List String
  message : String
deriving DecidableEq

/-- Embedding of WNSDeviceQuerySet.send_message(message). A falsy (empty)
queryset does nothing and returns None (result none); else one
wns_send_bulk_message call on the active registration ids as uri_list is
made and its return value (abstract, a Nat supplied by the caller) is
returned. -/
def WNSDeviceQuerySet.send_message (qs : List WNSDevice) (message : String)
    (gatewayResult : Nat) : Option (WnsBulkCall × Nat) :=
  if qs.isEmpty then none
  else
    some (⟨(qs.filter (fun d => d.active)).map (fun d => d.registration_id),
      message⟩, gatewayResult)

/-- Helper: evaluation of the Result Interpreter when the failure count is
positive and the first per-recipient entry carries an error code. -/
theorem deactivate_eval_cons (d : APNSDevice) (r : FCMResult) (r0 : FCMRecipient)
    (rest : List FCMRecipient) (hres : r.results = r0 :: rest) (e : String)
    (herr : r0.error = some e) (hf : 0 < r.failure) :
    deactivate_device_on_fcm_error d r =
      if e ∈ unrecoverable_errors then
        ⟨{ d with active := false }, [["active"]], none⟩
      else if e ∈ configuration_errors then
        ⟨d, [],
          some (PyError.improperlyConfigured
            ("FCM config issue when sending to device " ++ toString d.id
              ++ ": " ++ e))⟩
      else ⟨d, [], none⟩ := by
  simp [deactivate_device_on_fcm_error, hf, hres, herr]

/-- Helper: the Result Interpreter does nothing when the failure count is
zero. -/
theorem deactivate_eval_zero (d : APNSDevice) (r : FCMResult)
    (hf : r.failure = 0) :
    deactivate_device_on_fcm_error d r = ⟨d, [], none⟩ := by
  simp [deactivate_device_on_fcm_error, hf]

/-- C1: with failure count positive and a first per-recipient error code in
the unrecoverable set, the Result Interpreter sets active to false and
persists exactly the field active; with any other error code the device is
unchanged and nothing is persisted; with failure count zero nothing at all
happens. -/
theorem C1_result_interpreter (d : APNSDevice) (r : FCMResult)
    (r0 : FCMRecipient) (rest : List FCMRecipient) (hres : r.results = r0 :: rest)
    (e : String) (herr : r0.error = some e) :
    (0 < r.failure → e ∈ unrecoverable_errors →
      deactivate_device_on_fcm_error d r =
        ⟨{ d with active := false }, [["active"]], none⟩)
    ∧ (0 < r.failure → e ∉ unrecoverable_errors →
        (deactivate_device_on_fcm_error d r).device = d
        ∧ (deactivate_device_on_fcm_error d r).saves = [])
    ∧ (r.failure = 0 → deactivate_device_on_fcm_error d r = ⟨d, [], none⟩) := by
  refine ⟨fun hf hu => ?_, fun hf hu => ?_, fun hf => deactivate_eval_zero d r hf⟩
  · rw [deactivate_eval_cons d r r0 rest hres e herr hf, if_pos hu]
  · rw [deactivate_eval_cons d r r0 rest hres e herr hf, if_neg hu]
    by_cases hc : e ∈ configuration_errors
    · rw [if_pos hc]
      exact ⟨rfl, rfl⟩
    · rw [if_neg hc]
      exact ⟨rfl, rfl⟩

/-- C1 witness: a concrete NotRegistered failure deactivates the device and
persists exactly the active field. -/
theorem C1_result_interpreter_witness :
    deactivate_device_on_fcm_error ⟨1, true, "apnstok", none⟩
        ⟨1, [⟨some "NotRegistered"⟩]⟩ =
      ⟨⟨1, false, "apnstok", none⟩, [["active"]], none⟩ :=
  (C1_result_interpreter ⟨1, true, "apnstok", none⟩ ⟨1, [⟨some "NotRegistered"⟩]⟩
      ⟨some "NotRegistered"⟩ [] rfl "NotRegistered" rfl).1 (by decide) (by decide)

/-- C2: with failure count positive and first per-recipient error code
MismatchSenderId, the Result Interpreter raises ImproperlyConfigured; the
message contains the device id and the error code, and the device is
unchanged with nothing persisted. -/
theorem C2_mismatch_sender_id (d : APNSDevice) (r : FCMResult)
    (r0 : FCMRecipient) (rest : List FCMRecipient) (hres : r.results = r0 :: rest)
    (herr : r0.error = some "MismatchSenderId") (hf : 0 < r.failure) :
    deactivate_device_on_fcm_error d r =
      ⟨d, [],
        some (PyError.improperlyConfigured
          ("FCM config issue when sending to device " ++ toString d.id
            ++ ": " ++ "MismatchSenderId"))⟩
    ∧ (toString d.id).data <:+:
        ("FCM config issue when sending to device " ++ toString d.id
          ++ ": " ++ "MismatchSenderId").data
    ∧ "MismatchSenderId".data <:+:
        ("FCM config issue when sending to device " ++ toString d.id
          ++ ": " ++ "MismatchSenderId").data := by
  refine ⟨?_, ?_, ?_⟩
  · rw [deactivate_eval_cons d r r0 rest hres "MismatchSenderId" herr hf,
      if_neg (by decide), if_pos (by decide)]
  · exact ⟨"FCM config issue when sending to device ".data,
      (": " ++ "MismatchSenderId").data, by simp [String.data_append]⟩
  · exact ⟨("FCM config issue when sending to device " ++ toString d.id
      ++ ": ").data, [], by simp [String.data_append]⟩

/-- C2 witness: a concrete MismatchSenderId failure raises
ImproperlyConfigured and leaves the device untouched. -/
theorem C2_mismatch_sender_id_witness :
    deactivate_device_on_fcm_error ⟨7, true, "apnstok", none⟩
        ⟨1, [⟨some "MismatchSenderId"⟩]⟩ =
      ⟨⟨7, true, "apnstok", none⟩, [],
        some (PyError.improperlyConfigured
          ("FCM config issue when sending to device " ++ toString (7 : Nat)
            ++ ": " ++ "MismatchSenderId"))⟩ :=
  (C2_mismatch_sender_id ⟨7, true, "apnstok", none⟩ ⟨1, [⟨some "MismatchSenderId"⟩]⟩
      ⟨some "MismatchSenderId"⟩ [] rfl rfl (by decide)).1

/-- C9: with failure count positive and a first per-recipient entry carrying
no error key at all, the Result Interpreter hits a key-lookup failure
(KeyError on results[0]["error"]) instead of the no-side-effect outcome. -/
theorem C9_missing_error_key (d : APNSDevice) (r : FCMResult)
    (r0 : FCMRecipient) (rest : List FCMRecipient) (hres : r.results = r0 :: rest)
    (herr : r0.error = none) (hf : 0 < r.failure) :
    deactivate_device_on_fcm_error d r = ⟨d, [], some PyError.keyError⟩ := by
  simp [deactivate_device_on_fcm_error, hf, hres, herr]

/-- C9 witness: a concrete result with one failure whose first entry has no
error key raises KeyError. -/
theorem C9_missing_error_key_witness :
    deactivate_device_on_fcm_error ⟨1, true, "apnstok", none⟩ ⟨1, [⟨none⟩]⟩ =
      ⟨⟨1, true, "apnstok", none⟩, [], some PyError.keyError⟩ :=
  C9_missing_error_key ⟨1, true, "apnstok", none⟩ ⟨1, [⟨none⟩]⟩ ⟨none⟩ [] rfl rfl
    (by decide)

/-- C4: with a truthy fcm_token already cached, the Token Translator returns
at once: zero network calls, no persisted update, the device (every field)
unchanged and no exception — the operation is idempotent. -/
theorem C4_resolve_idempotent (d : APNSDevice) (response : List ConversionEntry)
    (hset : truthyStr d.fcm_token = true) :
    resolve_fcm_token d response = ⟨d, 0, [], none⟩ := by
  simp [resolve_fcm_token, hset]

/-- C4 witness: a concrete device with a cached token is untouched even when
the endpoint would have answered with a matching entry. -/
theorem C4_resolve_idempotent_witness :
    resolve_fcm_token ⟨1, true, "apnstok", some "fcmtok"⟩
        [⟨"apnstok", "OK", some "other"⟩] =
      ⟨⟨1, true, "apnstok", some "fcmtok"⟩, 0, [], none⟩ :=
  C4_resolve_idempotent ⟨1, true, "apnstok", some "fcmtok"⟩
    [⟨"apnstok", "OK", some "other"⟩] (by decide)

/-- Helper: when no response entry matches the registration id with status
OK, the loop of resolve_fcm_token finds nothing. -/
theorem findConversionToken_eq_none (reg : String) (response : List ConversionEntry)
    (h : ∀ r ∈ response, r.apns_token ≠ reg ∨ r.status ≠ "OK") :
    findConversionToken reg response = none := by
  induction response with
  | nil => rfl
  | cons r rest ih =>
    have hcond : (r.apns_token == reg && r.status == "OK") = false := by
      rcases h r (List.mem_cons_self r rest) with h1 | h1 <;> simp [h1]
    simp only [findConversionToken, hcond, Bool.false_eq_true, if_false]
    exact ih fun x hx => h x (List.mem_cons_of_mem r hx)

/-- C5 counterexample: fcm_token unset and the response carrying an entry
that matches the device registration id with status OK but whose
registration_token is the empty string: the claim says the token is stored
into fcm_token and persisted, yet the code stores nothing and persists
nothing, because the code guards the save behind Python truthiness of the
returned token. -/
theorem C5_translation_counterexample :
    resolve_fcm_token ⟨1, true, "apnstok", none⟩ [⟨"apnstok", "OK", some ""⟩] =
      ⟨⟨1, true, "apnstok", none⟩, 1, [], none⟩ := by decide

/-- C5 amended: with fcm_token unset, when the first response entry matching
the device registration id with status OK carries a non-empty
registration_token t, the Token Translator stores t into fcm_token and
persists exactly that one field; when no entry matches with status OK,
fcm_token stays unset, nothing is persisted and no exception is raised. -/
theorem C5_translation_store (d : APNSDevice) (response : List ConversionEntry)
    (hunset : truthyStr d.fcm_token = false) :
    (∀ t : String, findConversionToken d.registration_id response = some (some t) →
      t ≠ "" →
      resolve_fcm_token d response =
        ⟨{ d with fcm_token := some t }, 1, [["fcm_token"]], none⟩)
    ∧ ((∀ r ∈ response, r.apns_token ≠ d.registration_id ∨ r.status ≠ "OK") →
      resolve_fcm_token d response = ⟨d, 1, [], none⟩) := by
  constructor
  · intro t hfind hne
    simp [resolve_fcm_token, hunset, hfind, hne]
  · intro hno
    simp [resolve_fcm_token, hunset,
      findConversionToken_eq_none d.registration_id response hno]

/-- C5 witness: a concrete matching OK entry with a non-empty token is
stored and persisted as the single field fcm_token. -/
theorem C5_translation_store_witness :
    resolve_fcm_token ⟨1, true, "apnstok", none⟩ [⟨"apnstok", "OK", some "fcmtok"⟩] =
      ⟨⟨1, true, "apnstok", some "fcmtok"⟩, 1, [["fcm_token"]], none⟩ :=
  (C5_translation_store ⟨1, true, "apnstok", none⟩ [⟨"apnstok", "OK", some "fcmtok"⟩]
      (by decide)).1 "fcmtok" (by decide) (by decide)

/-- Helper: the Token Translator never changes the registration id. -/
theorem resolve_registration_id (d : APNSDevice) (response : List ConversionEntry) :
    (resolve_fcm_token d response).device.registration_id = d.registration_id := by
  by_cases h : truthyStr d.fcm_token = true
  · simp [resolve_fcm_token, h]
  · have h0 : truthyStr d.fcm_token = false := by simpa using h
    simp only [resolve_fcm_token, h0, Bool.false_eq_true, if_false]
    rcases hf : findConversionToken d.registration_id response with _ | tk
    · rfl
    · rcases tk with _ | t
      · rfl
      · by_cases ht : (t != "") = true <;> simp [ht]

/-- Helper: evaluation of APNSDevice.send_message under the APNS_USE_FCM
flag when the cached token is falsy and the translation step raises no
exception: one translation happens first, then either the FCM single-device
path or the native APNS fallback, decided by the post-translation token. -/
theorem send_message_eval_unset (d : APNSDevice) (message : String)
    (extra : Option (List (String × String))) (conv : List ConversionEntry)
    (fcmResult : FCMResult) (apnsRet : Nat)
    (hunset : truthyStr d.fcm_token = false)
    (hok : (resolve_fcm_token d conv).exn = none) :
    APNSDevice.send_message d message extra true conv fcmResult apnsRet =
      if truthyStr (resolve_fcm_token d conv).device.fcm_token then
        ⟨(deactivate_device_on_fcm_error (resolve_fcm_token d conv).device fcmResult).device,
          1, (resolve_fcm_token d conv).network_calls,
          [GatewayCall.fcmNotifySingle
            ((resolve_fcm_token d conv).device.fcm_token.getD "") message extra none],
          (resolve_fcm_token d conv).saves ++
            (deactivate_device_on_fcm_error (resolve_fcm_token d conv).device fcmResult).saves,
          none,
          (deactivate_device_on_fcm_error (resolve_fcm_token d conv).device fcmResult).exn⟩
      else
        ⟨(resolve_fcm_token d conv).device, 1,
          (resolve_fcm_token d conv).network_calls,
          [GatewayCall.apnsSend (resolve_fcm_token d conv).device.registration_id message],
          (resolve_fcm_token d conv).saves, some apnsRet, none⟩ := by
  unfold APNSDevice.send_message
  simp only [hunset, Bool.not_false, Bool.and_self, if_true, hok, Bool.true_and]

/-- C3: with APNS_USE_FCM set and no truthy cached fcm_token, send_message
runs the Token Translator exactly once before any delivery attempt; when the
translation completes and leaves fcm_token unset, delivery goes through the
native APNS gateway on the original registration id and returns its value;
when the translation sets fcm_token, delivery goes through the FCM
single-device API with message_body the message text, data_message the extra
payload and no message_title, and the Result Interpreter is then applied to
the FCM result. -/
theorem C3_apns_fcm_routing (d : APNSDevice) (message : String)
    (extra : Option (List (String × String))) (conv : List ConversionEntry)
    (fcmResult : FCMResult) (apnsRet : Nat)
    (hunset : truthyStr d.fcm_token = false)
    (hok : (resolve_fcm_token d conv).exn = none) :
    (APNSDevice.send_message d message extra true conv fcmResult apnsRet).resolve_calls = 1
    ∧ (truthyStr (resolve_fcm_token d conv).device.fcm_token = false →
        APNSDevice.send_message d message extra true conv fcmResult apnsRet =
          ⟨(resolve_fcm_token d conv).device, 1,
            (resolve_fcm_token d conv).network_calls,
            [GatewayCall.apnsSend d.registration_id message],
            (resolve_fcm_token d conv).saves, some apnsRet, none⟩)
    ∧ (∀ t : String, (resolve_fcm_token d conv).device.fcm_token = some t → t ≠ "" →
        APNSDevice.send_message d message extra true conv fcmResult apnsRet =
          ⟨(deactivate_device_on_fcm_error (resolve_fcm_token d conv).device fcmResult).device,
            1, (resolve_fcm_token d conv).network_calls,
            [GatewayCall.fcmNotifySingle t message extra none],
            (resolve_fcm_token d conv).saves ++
              (deactivate_device_on_fcm_error (resolve_fcm_token d conv).device fcmResult).saves,
            none,
            (deactivate_device_on_fcm_error (resolve_fcm_token d conv).device fcmResult).exn⟩) := by
  have hev := send_message_eval_unset d message extra conv fcmResult apnsRet hunset hok
  refine ⟨?_, ?_, ?_⟩
  · rw [hev]
    by_cases h : truthyStr (resolve_fcm_token d conv).device.fcm_token = true
    · rw [if_pos h]
    · rw [if_neg h]
  · intro h
    rw [hev, if_neg (by simp [h]), resolve_registration_id]
  · intro t ht hne
    have htr : truthyStr (resolve_fcm_token d conv).device.fcm_token = true := by
      simp [truthyStr, ht, hne]
    rw [hev, if_pos htr, ht]
    rfl

/-- C3 witness: a concrete device with no cached token and an empty endpoint
response makes exactly one translation attempt and falls back to the native
APNS gateway on the original registration id. -/
theorem C3_apns_fcm_routing_witness :
    (APNSDevice.send_message ⟨3, true, "apnstok3", none⟩ "hello" none true []
        ⟨0, []⟩ 5).resolve_calls = 1
    ∧ APNSDevice.send_message ⟨3, true, "apnstok3", none⟩ "hello" none true []
        ⟨0, []⟩ 5 =
      ⟨⟨3, true, "apnstok3", none⟩, 1, 1,
        [GatewayCall.apnsSend "apnstok3" "hello"], [], some 5, none⟩ :=
  ⟨(C3_apns_fcm_routing ⟨3, true, "apnstok3", none⟩ "hello" none [] ⟨0, []⟩ 5
      (by decide) (by decide)).1,
   (C3_apns_fcm_routing ⟨3, true, "apnstok3", none⟩ "hello" none [] ⟨0, []⟩ 5
      (by decide) (by decide)).2.1 (by decide)⟩

/-- C10: whenever a send through APNSDevice.send_message made the FCM
single-device gateway call, the Python return value is None; whenever it
made the native APNS gateway call, the return value is the native gateway
result. -/
theorem C10_fcm_path_returns_none (d : APNSDevice) (message : String)
    (extra : Option (List (String × String))) (use_fcm : Bool)
    (conv : List ConversionEntry) (fcmResult : FCMResult) (apnsRet : Nat) :
    ((∃ c ∈ (APNSDevice.send_message d message extra use_fcm conv fcmResult
        apnsRet).gateway_calls, c.isFcmSingle = true) →
      (APNSDevice.send_message d message extra use_fcm conv fcmResult apnsRet).retval
        = none)
    ∧ ((∃ c ∈ (APNSDevice.send_message d message extra use_fcm conv fcmResult
        apnsRet).gateway_calls, c.isFcmSingle = false) →
      (APNSDevice.send_message d message extra use_fcm conv fcmResult apnsRet).retval
        = some apnsRet) := by
  by_cases h1 : (use_fcm && !truthyStr d.fcm_token) = true
  · cases hexn : (resolve_fcm_token d conv).exn with
    | some e =>
      constructor <;>
        · intro hc
          simp [APNSDevice.send_message, h1, hexn] at hc
    | none =>
      by_cases h2 : (use_fcm && truthyStr (resolve_fcm_token d conv).device.fcm_token)
          = true
      · constructor <;>
          · intro hc
            simp_all [APNSDevice.send_message, h1, hexn, h2, GatewayCall.isFcmSingle]
      · constructor <;>
          · intro hc
            simp_all [APNSDevice.send_message, h1, hexn, h2, GatewayCall.isFcmSingle]
  · by_cases h2 : (use_fcm && truthyStr d.fcm_token) = true
    · constructor <;>
        · intro hc
          simp_all [APNSDevice.send_message, h1, h2, GatewayCall.isFcmSingle]
    · constructor <;>
        · intro hc
          simp_all [APNSDevice.send_message, h1, h2, GatewayCall.isFcmSingle]

/-- C10 witness: a concrete FCM-bridged send (flag set, cached token
present) returns None. -/
theorem C10_fcm_path_returns_none_witness :
    (APNSDevice.send_message ⟨2, true, "apnstok2", some "fcmtok2"⟩ "hi" none true []
        ⟨0, []⟩ 9).retval = none :=
  (C10_fcm_path_returns_none ⟨2, true, "apnstok2", some "fcmtok2"⟩ "hi" none true []
      ⟨0, []⟩ 9).1
    ⟨GatewayCall.fcmNotifySingle "fcmtok2" "hi" none none, by decide, by decide⟩

/-- C6: an empty queryset is falsy, so every bulk send_message (GCM, APNS,
WNS) makes no gateway call and returns None. -/
theorem C6_empty_queryset_noop (m1 : Option String) (extra : List (String × String))
    (r1 : FCMResult) (m2 m3 : String) (r2 r3 : Nat) :
    GCMDeviceQuerySet.send_message [] m1 extra r1 = ⟨none, [], [], none⟩
    ∧ APNSDeviceQuerySet.send_message [] m2 r2 = none
    ∧ WNSDeviceQuerySet.send_message [] m3 r3 = none :=
  ⟨rfl, rfl, rfl⟩

/-- C7: on a non-empty queryset each bulk send_message makes exactly one
gateway call carrying exactly the registration ids of the devices whose
active field is true, in queryset order; inactive devices are excluded. -/
theorem C7_bulk_active_only (qs1 : List GCMDevice) (m1 : Option String)
    (extra : List (String × String)) (r1 : FCMResult)
    (qs2 : List APNSDevice) (m2 : String) (r2 : Nat)
    (qs3 : List WNSDevice) (m3 : String) (r3 : Nat)
    (h1 : qs1 ≠ []) (h2 : qs2 ≠ []) (h3 : qs3 ≠ []) :
    (GCMDeviceQuerySet.send_message qs1 m1 extra r1).call =
      some ⟨(qs1.filter fun d => d.active).map fun d => d.registration_id,
        gcmData extra m1⟩
    ∧ APNSDeviceQuerySet.send_message qs2 m2 r2 =
      some (⟨(qs2.filter fun d => d.active).map fun d => d.registration_id, m2⟩, r2)
    ∧ WNSDeviceQuerySet.send_message qs3 m3 r3 =
      some (⟨(qs3.filter fun d => d.active).map fun d => d.registration_id, m3⟩, r3) := by
  refine ⟨?_, ?_, ?_⟩
  · simp [GCMDeviceQuerySet.send_message, List.isEmpty_iff, h1]
  · simp [APNSDeviceQuerySet.send_message, List.isEmpty_iff, h2]
  · simp [WNSDeviceQuerySet.send_message, List.isEmpty_iff, h3]

/-- C7 witness: a WNS queryset with 3 active and 1 inactive device makes one
bulk call with exactly the 3 active registration URIs. -/
theorem C7_bulk_active_only_witness :
    WNSDeviceQuerySet.send_message
        [⟨true, "u1"⟩, ⟨true, "u2"⟩, ⟨false, "u3"⟩, ⟨true, "u4"⟩] "msg" 4 =
      some (⟨["u1", "u2", "u4"], "msg"⟩, 4) :=
  (C7_bulk_active_only [⟨true, "g1"⟩] (some "m") [] ⟨0, []⟩
      [⟨1, true, "a1", none⟩] "m2" 2
      [⟨true, "u1"⟩, ⟨true, "u2"⟩, ⟨false, "u3"⟩, ⟨true, "u4"⟩] "msg" 4
      (by decide) (by decide) (by decide)).2.2

/-- C8 counterexample: a bulk GCM send on one active device whose gateway
result reports its single recipient with the unrecoverable error
NotRegistered leaves the device list unchanged and persists nothing: the
bulk queryset path never applies the Result Interpreter, so no per-recipient
deactivate/raise/no-op decision is produced, contrary to the claim. -/
theorem C8_counterexample :
    (GCMDeviceQuerySet.send_message [⟨true, "r1"⟩] (some "m") []
        ⟨1, [⟨some "NotRegistered"⟩]⟩).devices = [⟨true, "r1"⟩]
    ∧ (GCMDeviceQuerySet.send_message [⟨true, "r1"⟩] (some "m") []
        ⟨1, [⟨some "NotRegistered"⟩]⟩).saves = []
    ∧ "NotRegistered" ∈ unrecoverable_errors := by decide

/-- C8 amended: the classification logic lives in the single function
deactivate_device_on_fcm_error, which inspects the first recipient entry of
a result; it is applied only on the single-device FCM-bridged APNS send
path, whose outcome (device state, persisted updates, raised exception) is
exactly that of the Result Interpreter on the FCM result; bulk queryset
sends return the raw gateway result and apply no per-recipient
classification: devices and persistence are untouched. -/
theorem C8_classification_single_path_only (qs : List GCMDevice) (m : Option String)
    (extra : List (String × String)) (r : FCMResult) (d : APNSDevice)
    (msg : String) (ex : Option (List (String × String)))
    (conv : List ConversionEntry) (fcmResult : FCMResult) (apnsRet : Nat)
    (htok : truthyStr d.fcm_token = true) :
    ((GCMDeviceQuerySet.send_message qs m extra r).devices = qs
      ∧ (GCMDeviceQuerySet.send_message qs m extra r).saves = []
      ∧ (GCMDeviceQuerySet.send_message qs m extra r).retval =
          (if qs.isEmpty then none else some r))
    ∧ ((APNSDevice.send_message d msg ex true conv fcmResult apnsRet).device =
        (deactivate_device_on_fcm_error d fcmResult).device
      ∧ (APNSDevice.send_message d msg ex true conv fcmResult apnsRet).saves =
        (deactivate_device_on_fcm_error d fcmResult).saves
      ∧ (APNSDevice.send_message d msg ex true conv fcmResult apnsRet).exn =
        (deactivate_device_on_fcm_error d fcmResult).exn) := by
  constructor
  · unfold GCMDeviceQuerySet.send_message
    by_cases h : qs.isEmpty = true <;> simp [h]
  · unfold APNSDevice.send_message
    simp [htok]

/-- C8 amended witness: on a concrete bulk send the devices survive
untouched, and a concrete FCM-bridged single send with a NotRegistered
result takes exactly the Result Interpreter outcome. -/
theorem C8_classification_single_path_only_witness :
    (GCMDeviceQuerySet.send_message [⟨true, "r2"⟩] none [] ⟨0, []⟩).devices =
      [⟨true, "r2"⟩]
    ∧ (APNSDevice.send_message ⟨4, true, "a4", some "f4"⟩ "m" none true []
        ⟨1, [⟨some "NotRegistered"⟩]⟩ 0).device =
      (deactivate_device_on_fcm_error ⟨4, true, "a4", some "f4"⟩
        ⟨1, [⟨some "NotRegistered"⟩]⟩).device :=
  ⟨(C8_classification_single_path_only [⟨true, "r2"⟩] none [] ⟨0, []⟩
      ⟨4, true, "a4", some "f4"⟩ "m" none [] ⟨1, [⟨some "NotRegistered"⟩]⟩ 0
      (by decide)).1.1,
   (C8_classification_single_path_only [⟨true, "r2"⟩] none [] ⟨0, []⟩
      ⟨4, true, "a4", some "f4"⟩ "m" none [] ⟨1, [⟨some "NotRegistered"⟩]⟩ 0
      (by decide)).2.1⟩
